import Mathlib

/-!
Verification of the regman registry library: a named key/object registry
(`Registry`), a manager of named registries (`RegistryManager`), and a
registration-decorator convenience wrapper.

The package's core modules (regman/core.py, regman/manager.py,
regman/decorators.py) are not present in the repository snapshot; only the
test suite and example programs are. The definitions below are therefore
modelled from the specification (spec.md sections 3, 4, 7, 9), with the test
suite used to fix concrete message formats. Stateful Python methods become
explicit state passing: a mutating operation returns the new registry state
together with an optional error, so a failed operation that leaves the
object unchanged is modelled by returning the input state with an error.
-/

set_option autoImplicit false

namespace Regman

/-- Modelled from the spec: Python values usable as registry keys. The spec
(section 4.1, key-type policy) distinguishes hashable values (strings,
integers, None, ...) from unhashable ones (lists, dicts, sets), which the
missing regman/core.py rejects on keyed operations. -/
inductive Key where
  | str : String → Key
  | int : Int → Key
  | pynone : Key
  | pylist : Key
  | pydict : Key
  | pyset : Key
deriving DecidableEq

/-- Whether a key value is usable as a map key (hashable in the host
language). Lists, dicts and sets are unhashable. -/
def Key.hashable : Key → Bool
  | .pylist => false
  | .pydict => false
  | .pyset => false
  | _ => true

/-- Textual form of a key, as interpolated into error messages. -/
def Key.text : Key → String
  | .str s => s
  | .int n => toString n
  | .pynone => "None"
  | .pylist => "[]"
  | .pydict => "\x7b\x7d"
  | .pyset => "set()"

/-- The five kinds of the spec's error taxonomy (section 7). -/
inductive ErrKind where
  | duplicateKey
  | keyNotFound
  | duplicateRegistry
  | registryNotFound
  | invalidKeyType
deriving DecidableEq

/-- Modelled from the spec: the typed error set of section 7, each kind
carrying its diagnostic message. The missing regman modules raise these as
exceptions. -/
inductive RegError where
  | duplicateKey (msg : String)
  | keyNotFound (msg : String)
  | duplicateRegistry (msg : String)
  | registryNotFound (msg : String)
  | invalidKeyType (msg : String)
deriving DecidableEq

/-- The taxonomy kind of an error. -/
def RegError.kind : RegError → ErrKind
  | .duplicateKey _ => .duplicateKey
  | .keyNotFound _ => .keyNotFound
  | .duplicateRegistry _ => .duplicateRegistry
  | .registryNotFound _ => .registryNotFound
  | .invalidKeyType _ => .invalidKeyType

/-- The message carried by an error. -/
def RegError.msg : RegError → String
  | .duplicateKey m => m
  | .keyNotFound m => m
  | .duplicateRegistry m => m
  | .registryNotFound m => m
  | .invalidKeyType m => m

/-- Duplicate-key message format fixed by the spec (section 4.1) and the
test suite: `<name>: '<key>' already registered.` -/
def dupKeyMsg (name : String) (k : Key) : String :=
  name ++ ": \x27" ++ k.text ++ "\x27 already registered."

/-- Key-not-found message: the offending key, quoted (Python KeyError). -/
def notFoundMsg (k : Key) : String :=
  "\x27" ++ k.text ++ "\x27"

/-- Unhashable-key message, as matched by the test suite. -/
def unhashableMsg (k : Key) : String :=
  "unhashable type: " ++ k.text

/-- Modelled from the spec: the Registry of the missing regman/core.py — a
named mapping from key to value. `entries` is the contents of the internal
dict, in insertion order. -/
structure Registry (V : Type) where
  name : String
  entries : List (Key × V)
deriving DecidableEq

/-- First value bound to `k` in an association list, if any. -/
def lookupKey {V : Type} (k : Key) : List (Key × V) → Option V
  | [] => none
  | (k', v) :: rest => if k' = k then some v else lookupKey k rest

/-- Remove every binding of `k` from an association list. -/
def eraseKey {V : Type} (k : Key) : List (Key × V) → List (Key × V)
  | [] => []
  | (k', v) :: rest => if k' = k then eraseKey k rest else (k', v) :: eraseKey k rest

/-- Modelled from the spec: `Registry.new(name)` constructs an empty
registry tagged with `name`; always succeeds. -/
def Registry.new (V : Type) (name : String) : Registry V :=
  ⟨name, []⟩

/-- Modelled from the spec: `Registry.add(key, value)` of the missing
regman/core.py — insert-if-absent-else-fail. An unhashable key fails fast
with the invalid-key-type error; a present key fails with the duplicate-key
error and leaves the state unchanged; otherwise the entry is inserted.
The returned pair is (state after the call, error raised if any). -/
def Registry.add {V : Type} (r : Registry V) (k : Key) (v : V) :
    Registry V × Option RegError :=
  if k.hashable = false then
    (r, some (.invalidKeyType (unhashableMsg k)))
  else if (lookupKey k r.entries).isSome then
    (r, some (.duplicateKey (dupKeyMsg r.name k)))
  else
    ({ r with entries := r.entries ++ [(k, v)] }, none)

/-- Modelled from the spec: `Registry.get(key)` — returns the registered
value, fails with the key-not-found error when absent (no silent fallback),
and with the invalid-key-type error on an unhashable key. Read-only. -/
def Registry.get {V : Type} (r : Registry V) (k : Key) : Except RegError V :=
  if k.hashable = false then
    .error (.invalidKeyType (unhashableMsg k))
  else
    match lookupKey k r.entries with
    | some v => .ok v
    | none => .error (.keyNotFound (notFoundMsg k))

/-- Modelled from the spec: membership test (`key in registry`), strict on
key type like `get`. -/
def Registry.contains {V : Type} (r : Registry V) (k : Key) : Except RegError Bool :=
  if k.hashable = false then
    .error (.invalidKeyType (unhashableMsg k))
  else
    .ok (lookupKey k r.entries).isSome

/-- Modelled from the spec: `Registry.unregister(key)` (remove) — deletes
the entry if present, no error when absent, and a silent no-op on an
unhashable key (removal's idempotent contract takes precedence). -/
def Registry.unregister {V : Type} (r : Registry V) (k : Key) : Registry V :=
  if k.hashable = false then r
  else { r with entries := eraseKey k r.entries }

/-- Modelled from the spec: `keys()` returns an independent copy of the key
sequence. -/
def Registry.keys {V : Type} (r : Registry V) : List Key :=
  r.entries.map Prod.fst

/-- Modelled from the spec: `list()` returns an independent copy of the
full entry mapping. -/
def Registry.list {V : Type} (r : Registry V) : List (Key × V) :=
  r.entries

/-- Modelled from the spec: `size()` / `len(registry)` — count of entries. -/
def Registry.size {V : Type} (r : Registry V) : Nat :=
  r.entries.length

/-- Modelled from the spec: `clear()` removes all entries. -/
def Registry.clear {V : Type} (r : Registry V) : Registry V :=
  { r with entries := [] }

/-- Modelled from the spec: `describe()` / `repr` —
`<Registry name=<name> size=<n>>`. -/
def Registry.describe {V : Type} (r : Registry V) : String :=
  "<Registry name=" ++ r.name ++ " size=" ++ toString r.size ++ ">"

/-- Concrete bodies for callable objects: a defunctionalized code so that
object equality stays decidable while behavior is still observable. -/
inductive FnCode where
  | constFn (c : Nat)
  | addFn (c : Nat)
deriving DecidableEq

/-- Run a callable body on a natural-number argument. -/
def FnCode.run : FnCode → Nat → Nat
  | .constFn c, _ => c
  | .addFn c, x => x + c

/-- Modelled from the spec: the arbitrary objects a registry stores —
classes, functions (with a declared symbol name) and plain values including
None (spec section 9, dynamic any-object storage as a tagged union). -/
inductive Obj where
  | cls (name : String)
  | func (name : String) (code : FnCode)
  | str (s : String)
  | pynone
deriving DecidableEq

/-- The declared symbol name of an object, when it has one (functions and
classes do; plain values do not). -/
def Obj.declName : Obj → Option String
  | .cls n => some n
  | .func n _ => some n
  | _ => none

/-- Calling an object: only functions are callable here. -/
def Obj.call : Obj → Nat → Option Nat
  | .func _ code, x => some (code.run x)
  | _, _ => none

/-- Modelled from the spec: the key the registration decorator of the
missing regman/decorators.py actually uses — the explicit `key` if provided
and non-empty, otherwise the object's own declared name. -/
def effectiveKey (key : Option String) (obj : Obj) : Option String :=
  match key with
  | some s => if s = "" then obj.declName else some s
  | none => obj.declName

/-- Modelled from the spec: the registration decorator of the missing
regman/decorators.py — registers `obj` under the effective key via `add`
(inheriting its duplicate-key failure) and returns `obj` itself unchanged.
The result is (state after the call, returned object or error). -/
def register (r : Registry Obj) (key : Option String) (obj : Obj) :
    Registry Obj × Except RegError Obj :=
  match effectiveKey key obj with
  | none => (r, .error (.invalidKeyType "object has no declared name"))
  | some k =>
    match Registry.add r (.str k) obj with
    | (r2, none) => (r2, .ok obj)
    | (r2, some e) => (r2, .error e)

/-- Duplicate-registry message format fixed by the spec (section 4.2) and
the test suite: `Registry '<name>' already exists.` -/
def dupRegMsg (name : String) : String :=
  "Registry \x27" ++ name ++ "\x27 already exists."

/-- Registry-not-found message: the missing name, quoted (Python KeyError). -/
def regNotFoundMsg (name : String) : String :=
  "\x27" ++ name ++ "\x27"

/-- Modelled from the spec: the RegistryManager of the missing
regman/manager.py — a mapping from registry name to the Registry instance
it owns, in creation order. -/
structure RegistryManager (V : Type) where
  registries : List (String × Registry V)
deriving DecidableEq

/-- First registry bound to `name` in the manager's map, if any. -/
def lookupName {V : Type} (name : String) :
    List (String × Registry V) → Option (Registry V)
  | [] => none
  | (n, r) :: rest => if n = name then some r else lookupName name rest

/-- Modelled from the spec: `RegistryManager.new()` — an empty manager. -/
def RegistryManager.new (V : Type) : RegistryManager V :=
  ⟨[]⟩

/-- Modelled from the spec: `create_registry(name)` of the missing
regman/manager.py — constructs a new empty Registry, stores it under
`name` and returns it; fails with the duplicate-registry error if `name`
is already present, leaving the manager (hence the existing registry)
untouched. -/
def RegistryManager.create_registry {V : Type} (m : RegistryManager V)
    (name : String) : RegistryManager V × Except RegError (Registry V) :=
  if (lookupName name m.registries).isSome then
    (m, .error (.duplicateRegistry (dupRegMsg name)))
  else
    let r := Registry.new V name
    (⟨m.registries ++ [(name, r)]⟩, .ok r)

/-- Modelled from the spec: `get_registry(name)` — returns the stored
Registry instance, fails with the registry-not-found error when absent. -/
def RegistryManager.get_registry {V : Type} (m : RegistryManager V)
    (name : String) : Except RegError (Registry V) :=
  match lookupName name m.registries with
  | some r => .ok r
  | none => .error (.registryNotFound (regNotFoundMsg name))

/-- Modelled from the spec: `all()` — an independent copy of the
name-to-Registry map (the outer mapping is decoupled, the Registry values
remain the shared instances). -/
def RegistryManager.all {V : Type} (m : RegistryManager V) :
    List (String × Registry V) :=
  m.registries

/-- Replace the registry stored under `name`, keeping its position. -/
def updateName {V : Type} (name : String) (r2 : Registry V) :
    List (String × Registry V) → List (String × Registry V)
  | [] => []
  | (n, r) :: rest =>
    if n = name then (n, r2) :: rest else (n, r) :: updateName name r2 rest

/-- Mutating a stored registry in place through the manager: the registries
are shared references, so an operation performed through any reference to
the registry named `name` updates the one instance the manager owns. This
models calling `add` on the object returned by `create_registry` or
`get_registry`. -/
def RegistryManager.addIn {V : Type} (m : RegistryManager V) (name : String)
    (k : Key) (v : V) : RegistryManager V × Option RegError :=
  match lookupName name m.registries with
  | none => (m, some (.registryNotFound (regNotFoundMsg name)))
  | some r =>
    match Registry.add r k v with
    | (r2, none) => (⟨updateName name r2 m.registries⟩, none)
    | (_, some e) => (m, some e)

/-- A registry together with caller-held results of `keys()` and `list()`.
The spec's copy contract (the returned sequence/mapping is an independent
copy) is encoded by making the snapshots separate state components: the
caller mutates them without going through any registry operation. -/
structure RegistryView (V : Type) where
  reg : Registry V
  keysSnap : List Key
  listSnap : List (Key × V)

/-- Call `keys()` and `list()` on a registry and hold the results. -/
def Registry.takeView {V : Type} (r : Registry V) : RegistryView V :=
  ⟨r, r.keys, r.list⟩

/-- Caller-side mutation: append a key to the sequence `keys()` returned. -/
def RegistryView.appendKey {V : Type} (s : RegistryView V) (k : Key) :
    RegistryView V :=
  { s with keysSnap := s.keysSnap ++ [k] }

/-- Caller-side mutation: insert an entry into the mapping `list()`
returned. -/
def RegistryView.insertEntry {V : Type} (s : RegistryView V) (k : Key)
    (v : V) : RegistryView V :=
  { s with listSnap := s.listSnap ++ [(k, v)] }

/-- A manager together with the caller-held result of `all()`. -/
structure ManagerView (V : Type) where
  mgr : RegistryManager V
  allSnap : List (String × Registry V)

/-- Call `all()` on a manager and hold the result. -/
def RegistryManager.takeView {V : Type} (m : RegistryManager V) :
    ManagerView V :=
  ⟨m, m.all⟩

/-- Caller-side mutation: insert a name/registry pair into the mapping
`all()` returned. -/
def ManagerView.insertRegistry {V : Type} (s : ManagerView V) (n : String)
    (r : Registry V) : ManagerView V :=
  { s with allSnap := s.allSnap ++ [(n, r)] }

/-! ### Association-list lemmas -/

theorem lookupKey_append {V : Type} (k : Key) (l1 l2 : List (Key × V)) :
    lookupKey k (l1 ++ l2) =
      (match lookupKey k l1 with
       | some v => some v
       | none => lookupKey k l2) := by
  induction l1 with
  | nil => simp [lookupKey]
  | cons p rest ih =>
    obtain ⟨k', v⟩ := p
    by_cases h : k' = k <;> simp [lookupKey, h, ih]

theorem eraseKey_append {V : Type} (k : Key) (l1 l2 : List (Key × V)) :
    eraseKey k (l1 ++ l2) = eraseKey k l1 ++ eraseKey k l2 := by
  induction l1 with
  | nil => simp [eraseKey]
  | cons p rest ih =>
    obtain ⟨k', v⟩ := p
    by_cases h : k' = k <;> simp [eraseKey, h, ih]

theorem eraseKey_of_lookup_none {V : Type} (k : Key) (l : List (Key × V))
    (h : lookupKey k l = none) : eraseKey k l = l := by
  induction l with
  | nil => simp [eraseKey]
  | cons p rest ih =>
    obtain ⟨k', v⟩ := p
    by_cases hk : k' = k
    · simp [lookupKey, hk] at h
    · simp [lookupKey, hk] at h
      simp [eraseKey, hk, ih h]

theorem lookupName_append {V : Type} (n : String)
    (l1 l2 : List (String × Registry V)) :
    lookupName n (l1 ++ l2) =
      (match lookupName n l1 with
       | some r => some r
       | none => lookupName n l2) := by
  induction l1 with
  | nil => simp [lookupName]
  | cons p rest ih =>
    obtain ⟨n', r⟩ := p
    by_cases h : n' = n <;> simp [lookupName, h, ih]

theorem lookupName_updateName {V : Type} (n : String) (r2 : Registry V)
    (l : List (String × Registry V)) (r : Registry V)
    (h : lookupName n l = some r) :
    lookupName n (updateName n r2 l) = some r2 := by
  induction l with
  | nil => simp [lookupName] at h
  | cons p rest ih =>
    obtain ⟨n', r'⟩ := p
    by_cases hn : n' = n
    · simp [updateName, lookupName, hn]
    · simp [lookupName, hn] at h
      simp [updateName, lookupName, hn, ih h]

theorem lookupKey_append_single {V : Type} (k : Key) (l : List (Key × V))
    (v : V) (h : lookupKey k l = none) :
    lookupKey k (l ++ [(k, v)]) = some v := by
  rw [lookupKey_append, h]
  simp [lookupKey]

/-- A successful `add` presupposes a hashable, absent key and appends the
entry. -/
theorem add_ok_elim {V : Type} (r r' : Registry V) (k : Key) (v : V)
    (h : Registry.add r k v = (r', none)) :
    k.hashable = true ∧ lookupKey k r.entries = none ∧
      r' = ⟨r.name, r.entries ++ [(k, v)]⟩ := by
  by_cases hk : k.hashable = false
  · simp [Registry.add, hk] at h
  · rw [Bool.not_eq_false] at hk
    cases hl : lookupKey k r.entries with
    | some v' => simp [Registry.add, hk, hl] at h
    | none =>
      simp [Registry.add, hk, hl] at h
      exact ⟨hk, rfl, h.symm⟩

/-- C1: for every Registry and every key, at most one `add` per key
succeeds — once an `add` of `k` has succeeded, a later `add` of `k` fails
with the duplicate-key error `"<name>: '<key>' already registered."` and
returns the state unchanged, `get k` still returns the originally
registered value, and the failed `add` leaves the size unchanged (the size
is that of the one successful insertion). -/
theorem add_duplicate_unique {V : Type} (r r' : Registry V) (k : Key)
    (v w : V) (hadd : Registry.add r k v = (r', none)) :
    Registry.add r' k w =
      (r', some (RegError.duplicateKey (dupKeyMsg r.name k))) ∧
    Registry.get r' k = .ok v ∧
    r'.size = r.size + 1 := by
  obtain ⟨hk, hl, hr⟩ := add_ok_elim r r' k v hadd
  have hfound : lookupKey k r'.entries = some v := by
    rw [hr]
    exact lookupKey_append_single k r.entries v hl
  refine ⟨?_, ?_, ?_⟩
  · have hname : r'.name = r.name := by rw [hr]
    simp [Registry.add, hk, hfound, hname]
  · simp [Registry.get, hk, hfound]
  · rw [hr]
    simp [Registry.size]

/-- Witness for C1 at a concrete registry, key and values. -/
theorem add_duplicate_unique_witness :
    Registry.add
        (Registry.mk "test_registry" [(Key.str "duplicate_key", "first_object")])
        (Key.str "duplicate_key") "second_object" =
      (Registry.mk "test_registry" [(Key.str "duplicate_key", "first_object")],
        some (RegError.duplicateKey
          (dupKeyMsg "test_registry" (Key.str "duplicate_key")))) ∧
    Registry.get
        (Registry.mk "test_registry" [(Key.str "duplicate_key", "first_object")])
        (Key.str "duplicate_key") = .ok "first_object" ∧
    (Registry.mk "test_registry"
      [(Key.str "duplicate_key", "first_object")]).size =
      (Registry.mk "test_registry" ([] : List (Key × String))).size + 1 :=
  add_duplicate_unique (Registry.mk "test_registry" [])
    (Registry.mk "test_registry" [(Key.str "duplicate_key", "first_object")])
    (Key.str "duplicate_key") "first_object" "second_object" rfl

/-- C2: `add(k, v)` followed by `get(k)` returns `v`; `unregister(k)` then
makes `get(k)` fail with the key-not-found error (and restores the previous
state); `unregister(k)` on an absent `k` raises no error — it is a total
function — and leaves the registry unchanged. -/
theorem add_get_unregister_inverse {V : Type} (r r' : Registry V) (k : Key)
    (v : V) (hadd : Registry.add r k v = (r', none)) :
    Registry.get r' k = .ok v ∧
    r'.unregister k = r ∧
    Registry.get (r'.unregister k) k =
      .error (RegError.keyNotFound (notFoundMsg k)) ∧
    r.unregister k = r := by
  obtain ⟨hk, hl, hr⟩ := add_ok_elim r r' k v hadd
  have hfound : lookupKey k r'.entries = some v := by
    rw [hr]
    exact lookupKey_append_single k r.entries v hl
  have herase : r'.unregister k = r := by
    rw [hr]
    simp [Registry.unregister, hk, eraseKey_append,
      eraseKey_of_lookup_none k r.entries hl, eraseKey]
  refine ⟨?_, herase, ?_, ?_⟩
  · simp [Registry.get, hk, hfound]
  · rw [herase]
    simp [Registry.get, hk, hl]
  · simp [Registry.unregister, hk, eraseKey_of_lookup_none k r.entries hl]

/-- Witness for C2 at a concrete registry, key and value. -/
theorem add_get_unregister_inverse_witness :
    Registry.get
        (Registry.mk "test_registry" [(Key.str "test_key", "test_object")])
        (Key.str "test_key") = .ok "test_object" ∧
    (Registry.mk "test_registry"
        [(Key.str "test_key", "test_object")]).unregister (Key.str "test_key") =
      Registry.mk "test_registry" [] ∧
    Registry.get
        ((Registry.mk "test_registry"
          [(Key.str "test_key", "test_object")]).unregister (Key.str "test_key"))
        (Key.str "test_key") =
      .error (RegError.keyNotFound (notFoundMsg (Key.str "test_key"))) ∧
    (Registry.mk "test_registry" ([] : List (Key × String))).unregister
        (Key.str "test_key") =
      Registry.mk "test_registry" [] :=
  add_get_unregister_inverse (Registry.mk "test_registry" [])
    (Registry.mk "test_registry" [(Key.str "test_key", "test_object")])
    (Key.str "test_key") "test_object" rfl

/-- A successful `create_registry` presupposes a fresh name, returns the
empty registry tagged with that name, and appends it to the manager. -/
theorem create_ok_elim {V : Type} (m m1 : RegistryManager V) (name : String)
    (r0 : Registry V) (h : m.create_registry name = (m1, .ok r0)) :
    lookupName name m.registries = none ∧ r0 = Registry.mk name [] ∧
      m1 = ⟨m.registries ++ [(name, Registry.mk name [])]⟩ := by
  cases hl : lookupName name m.registries with
  | some r => simp [RegistryManager.create_registry, hl] at h
  | none =>
    simp [RegistryManager.create_registry, hl, Registry.new] at h
    exact ⟨rfl, h.2.symm, h.1.symm⟩

/-- C3: `create_registry(name)` stores and returns the very Registry that
`get_registry(name)` returns; adding an entry through that shared instance
is visible through any later `get_registry`; creating the same name again
fails with the duplicate-registry error `"Registry '<name>' already
exists."`, leaves the manager unchanged, and the existing registry with its
entries stays intact. -/
theorem manager_delegation {V : Type} (m m1 : RegistryManager V)
    (name : String) (k : Key) (v : V) (r0 : Registry V)
    (hk : k.hashable = true)
    (hcreate : m.create_registry name = (m1, .ok r0)) :
    m1.get_registry name = .ok r0 ∧
    (∃ m2 : RegistryManager V, m1.addIn name k v = (m2, none) ∧
      m2.get_registry name = .ok (Registry.mk name [(k, v)]) ∧
      (Registry.mk name [(k, v)]).get k = .ok v ∧
      m2.create_registry name =
        (m2, .error (RegError.duplicateRegistry (dupRegMsg name)))) := by
  obtain ⟨hl, hr0, hm1⟩ := create_ok_elim m m1 name r0 hcreate
  have hlook1 : lookupName name m1.registries = some r0 := by
    rw [hm1, hr0]
    rw [lookupName_append, hl]
    simp [lookupName]
  have hadd : Registry.add r0 k v = (Registry.mk name [(k, v)], none) := by
    rw [hr0]
    simp [Registry.add, hk, lookupKey]
  refine ⟨?_, ⟨updateName name (Registry.mk name [(k, v)]) m1.registries⟩,
    ?_, ?_, ?_, ?_⟩
  · simp [RegistryManager.get_registry, hlook1]
  · simp [RegistryManager.addIn, hlook1, hadd]
  · have := lookupName_updateName name (Registry.mk name [(k, v)])
      m1.registries r0 hlook1
    simp [RegistryManager.get_registry, this]
  · simp [Registry.get, hk, lookupKey]
  · have := lookupName_updateName name (Registry.mk name [(k, v)])
      m1.registries r0 hlook1
    simp [RegistryManager.create_registry, this]

/-- Witness for C3 at a concrete manager, registry name, key and value. -/
theorem manager_delegation_witness :
    (RegistryManager.mk
        [("r", Registry.mk "r" ([] : List (Key × String)))]).get_registry "r" =
      .ok (Registry.mk "r" []) ∧
    (∃ m2 : RegistryManager String,
      (RegistryManager.mk
          [("r", Registry.mk "r" ([] : List (Key × String)))]).addIn "r"
          (Key.str "k") "v" = (m2, none) ∧
      m2.get_registry "r" = .ok (Registry.mk "r" [(Key.str "k", "v")]) ∧
      (Registry.mk "r" [(Key.str "k", "v")]).get (Key.str "k") = .ok "v" ∧
      m2.create_registry "r" =
        (m2, .error (RegError.duplicateRegistry (dupRegMsg "r")))) :=
  manager_delegation (RegistryManager.mk [])
    (RegistryManager.mk [("r", Registry.mk "r" [])]) "r" (Key.str "k") "v"
    (Registry.mk "r" []) rfl rfl

/-- C4: the results of `keys()`, `list()` and `all()` are independent
copies — appending a key to the returned sequence, inserting an entry into
the returned mapping, or inserting a pair into the returned name map
really changes the caller-held snapshot, yet never changes the source's
subsequent `keys()`, `list()`, `size()`, membership or `all()` results. -/
theorem copy_isolation {V : Type} (r : Registry V) (m : RegistryManager V)
    (k k2 : Key) (v : V) (n : String) (rg : Registry V) :
    ((r.takeView.appendKey k).keysSnap = r.keys ++ [k] ∧
     (r.takeView.appendKey k).reg.keys = r.keys ∧
     (r.takeView.appendKey k).reg.list = r.list ∧
     (r.takeView.appendKey k).reg.size = r.size ∧
     (r.takeView.appendKey k).reg.contains k2 = r.contains k2) ∧
    ((r.takeView.insertEntry k v).listSnap = r.list ++ [(k, v)] ∧
     (r.takeView.insertEntry k v).reg.keys = r.keys ∧
     (r.takeView.insertEntry k v).reg.list = r.list ∧
     (r.takeView.insertEntry k v).reg.size = r.size ∧
     (r.takeView.insertEntry k v).reg.contains k2 = r.contains k2) ∧
    ((m.takeView.insertRegistry n rg).allSnap = m.all ++ [(n, rg)] ∧
     (m.takeView.insertRegistry n rg).mgr.all = m.all ∧
     (m.takeView.insertRegistry n rg).mgr.get_registry n =
       m.get_registry n) := by
  refine ⟨⟨rfl, rfl, rfl, rfl, rfl⟩, ⟨rfl, rfl, rfl, rfl, rfl⟩,
    rfl, rfl, rfl⟩

/-- C5: each failure is raised with its own kind of the error taxonomy —
duplicate key from `add`, key not found from `get`, duplicate registry from
`create_registry`, registry not found from `get_registry`, invalid key type
from keyed operations on unhashable keys — the five kinds are pairwise
distinct so callers can branch without parsing messages, and the messages
still embed the registry/manager name and the offending key/name. -/
theorem error_distinguishability {V : Type} (r : Registry V)
    (k1 k2 ku : Key) (v : V) (m : RegistryManager V) (n1 n2 : String)
    (h1 : k1.hashable = true) (hdup : (lookupKey k1 r.entries).isSome = true)
    (h2 : k2.hashable = true) (habs : lookupKey k2 r.entries = none)
    (hku : ku.hashable = false)
    (hn1 : (lookupName n1 m.registries).isSome = true)
    (hn2 : lookupName n2 m.registries = none) :
    Registry.add r k1 v =
      (r, some (RegError.duplicateKey (dupKeyMsg r.name k1))) ∧
    Registry.get r k2 = .error (RegError.keyNotFound (notFoundMsg k2)) ∧
    m.create_registry n1 =
      (m, .error (RegError.duplicateRegistry (dupRegMsg n1))) ∧
    m.get_registry n2 =
      .error (RegError.registryNotFound (regNotFoundMsg n2)) ∧
    Registry.add r ku v =
      (r, some (RegError.invalidKeyType (unhashableMsg ku))) ∧
    ((RegError.duplicateKey (dupKeyMsg r.name k1)).kind ≠
        (RegError.keyNotFound (notFoundMsg k2)).kind ∧
      (RegError.duplicateKey (dupKeyMsg r.name k1)).kind ≠
        (RegError.duplicateRegistry (dupRegMsg n1)).kind ∧
      (RegError.duplicateKey (dupKeyMsg r.name k1)).kind ≠
        (RegError.registryNotFound (regNotFoundMsg n2)).kind ∧
      (RegError.duplicateKey (dupKeyMsg r.name k1)).kind ≠
        (RegError.invalidKeyType (unhashableMsg ku)).kind ∧
      (RegError.keyNotFound (notFoundMsg k2)).kind ≠
        (RegError.duplicateRegistry (dupRegMsg n1)).kind ∧
      (RegError.keyNotFound (notFoundMsg k2)).kind ≠
        (RegError.registryNotFound (regNotFoundMsg n2)).kind ∧
      (RegError.keyNotFound (notFoundMsg k2)).kind ≠
        (RegError.invalidKeyType (unhashableMsg ku)).kind ∧
      (RegError.duplicateRegistry (dupRegMsg n1)).kind ≠
        (RegError.registryNotFound (regNotFoundMsg n2)).kind ∧
      (RegError.duplicateRegistry (dupRegMsg n1)).kind ≠
        (RegError.invalidKeyType (unhashableMsg ku)).kind ∧
      (RegError.registryNotFound (regNotFoundMsg n2)).kind ≠
        (RegError.invalidKeyType (unhashableMsg ku)).kind) ∧
    (∃ mid tail, dupKeyMsg r.name k1 = r.name ++ mid ++ k1.text ++ tail) ∧
    (∃ pre tail, dupRegMsg n1 = pre ++ n1 ++ tail) := by
  have hget : Registry.get r k2 =
      .error (RegError.keyNotFound (notFoundMsg k2)) := by
    simp [Registry.get, h2, habs]
  refine ⟨?_, hget, ?_, ?_, ?_, ?_, ?_, ?_⟩
  · obtain ⟨v1, hv1⟩ := Option.isSome_iff_exists.mp hdup
    simp [Registry.add, h1, hv1]
  · simp [RegistryManager.create_registry, hn1]
  · obtain ⟨rg, hrg⟩ := Option.isSome_iff_exists.mp hn1
    simp [RegistryManager.get_registry, hn2]
  · simp [Registry.add, hku]
  · refine ⟨?_, ?_, ?_, ?_, ?_, ?_, ?_, ?_, ?_, ?_⟩ <;> simp [RegError.kind]
  · exact ⟨": \x27", "\x27 already registered.", rfl⟩
  · exact ⟨"Registry \x27", "\x27 already exists.", rfl⟩

/-- Witness for C5 at a concrete registry, manager, keys and names. -/
theorem error_distinguishability_witness :
    Registry.add (Registry.mk "R" [(Key.str "a", "x")]) (Key.str "a") "y" =
      (Registry.mk "R" [(Key.str "a", "x")],
        some (RegError.duplicateKey (dupKeyMsg "R" (Key.str "a")))) :=
  (error_distinguishability (Registry.mk "R" [(Key.str "a", "x")])
    (Key.str "a") (Key.str "b") Key.pylist "y"
    (RegistryManager.mk [("m1", Registry.mk "m1" [])]) "m1" "m2"
    rfl rfl rfl rfl rfl rfl rfl).1

/-- Whatever the key argument, a successful `register` returns the
decorated object itself. -/
theorem register_ok_elim (r : Registry Obj) (key : Option String)
    (obj res : Obj) (r2 : Registry Obj)
    (h : register r key obj = (r2, .ok res)) : res = obj := by
  cases hek : effectiveKey key obj with
  | none => simp [register, hek] at h
  | some k =>
    cases hadd : Registry.add r (.str k) obj with
    | mk r3 err =>
      cases err with
      | none =>
        simp [register, hek, hadd] at h
        exact h.2.symm
      | some e => simp [register, hek, hadd] at h

/-- When the effective key is fresh, `register` succeeds, returns the
object unchanged, and the object is retrievable under that key. -/
theorem register_ok_of_fresh (r : Registry Obj) (key : Option String)
    (obj : Obj) (k : String) (hek : effectiveKey key obj = some k)
    (habs : lookupKey (Key.str k) r.entries = none) :
    register r key obj =
      (⟨r.name, r.entries ++ [(Key.str k, obj)]⟩, .ok obj) ∧
    Registry.get ⟨r.name, r.entries ++ [(Key.str k, obj)]⟩ (Key.str k) =
      .ok obj := by
  have hadd : Registry.add r (Key.str k) obj =
      (⟨r.name, r.entries ++ [(Key.str k, obj)]⟩, none) := by
    simp [Registry.add, Key.hashable, habs]
  constructor
  · simp [register, hek, hadd]
  · simp [Registry.get, Key.hashable, lookupKey_append_single _ _ _ habs]

/-- C6: the registration decorator registers the object under the explicit
key when one is provided and non-empty, and otherwise (key omitted as None
or given as the empty string) under the object's own declared name; it
returns the object itself unchanged, so the decorated binding calls
identically to the undecorated object and keeps the same declared name. -/
theorem decorator_transparency (r : Registry Obj) (key : String) (obj : Obj)
    (n : String) (hname : obj.declName = some n) :
    (key ≠ "" → lookupKey (Key.str key) r.entries = none →
      ∃ r2 : Registry Obj, register r (some key) obj = (r2, .ok obj) ∧
        r2.get (Key.str key) = .ok obj) ∧
    (lookupKey (Key.str n) r.entries = none →
      (∃ r2 : Registry Obj, register r none obj = (r2, .ok obj) ∧
        r2.get (Key.str n) = .ok obj) ∧
      (∃ r2 : Registry Obj, register r (some "") obj = (r2, .ok obj) ∧
        r2.get (Key.str n) = .ok obj)) ∧
    (∀ (anyKey : Option String) (r2 : Registry Obj) (res : Obj),
      register r anyKey obj = (r2, .ok res) →
      res = obj ∧ (∀ x, res.call x = obj.call x) ∧
        res.declName = obj.declName) := by
  refine ⟨?_, ?_, ?_⟩
  · intro hkey habs
    have hek : effectiveKey (some key) obj = some key := by
      simp [effectiveKey, hkey]
    obtain ⟨h1, h2⟩ := register_ok_of_fresh r (some key) obj key hek habs
    exact ⟨_, h1, h2⟩
  · intro habs
    have hek1 : effectiveKey none obj = some n := by
      simp [effectiveKey, hname]
    have hek2 : effectiveKey (some "") obj = some n := by
      simp [effectiveKey, hname]
    obtain ⟨h1, h2⟩ := register_ok_of_fresh r none obj n hek1 habs
    obtain ⟨h3, h4⟩ := register_ok_of_fresh r (some "") obj n hek2 habs
    exact ⟨⟨_, h1, h2⟩, ⟨_, h3, h4⟩⟩
  · intro anyKey r2 res h
    have hres := register_ok_elim r anyKey obj res r2 h
    subst hres
    exact ⟨rfl, fun _ => rfl, rfl⟩

/-- Witness for C6 at a concrete registry and a concrete named function. -/
theorem decorator_transparency_witness :
    (∃ r2 : Registry Obj,
      register (Registry.mk "test_registry" []) none
          (Obj.func "test_function" (FnCode.constFn 5)) =
        (r2, .ok (Obj.func "test_function" (FnCode.constFn 5))) ∧
      r2.get (Key.str "test_function") =
        .ok (Obj.func "test_function" (FnCode.constFn 5))) ∧
    (∃ r2 : Registry Obj,
      register (Registry.mk "test_registry" []) (some "")
          (Obj.func "test_function" (FnCode.constFn 5)) =
        (r2, .ok (Obj.func "test_function" (FnCode.constFn 5))) ∧
      r2.get (Key.str "test_function") =
        .ok (Obj.func "test_function" (FnCode.constFn 5))) :=
  (decorator_transparency (Registry.mk "test_registry" []) "custom_key"
    (Obj.func "test_function" (FnCode.constFn 5)) "test_function" rfl).2.1 rfl

/-- C7: on an unhashable key, `add`, `get` and `contains` fail fast with
the invalid-key-type error — a kind distinct from duplicate-key and
key-not-found — while `unregister` on the same key raises nothing and
leaves the registry unchanged. -/
theorem unhashable_key_policy {V : Type} (r : Registry V) (k : Key) (v : V)
    (hk : k.hashable = false) :
    Registry.add r k v =
      (r, some (RegError.invalidKeyType (unhashableMsg k))) ∧
    Registry.get r k = .error (RegError.invalidKeyType (unhashableMsg k)) ∧
    Registry.contains r k =
      .error (RegError.invalidKeyType (unhashableMsg k)) ∧
    r.unregister k = r ∧
    (RegError.invalidKeyType (unhashableMsg k)).kind ≠
      ErrKind.duplicateKey ∧
    (RegError.invalidKeyType (unhashableMsg k)).kind ≠ ErrKind.keyNotFound := by
  refine ⟨?_, ?_, ?_, ?_, ?_, ?_⟩ <;>
    simp [Registry.add, Registry.get, Registry.contains, Registry.unregister,
      hk, RegError.kind]

/-- Witness for C7 at a concrete registry and the unhashable list key. -/
theorem unhashable_key_policy_witness :
    Registry.add (Registry.mk "type_test" ([] : List (Key × String)))
        Key.pylist "value" =
      (Registry.mk "type_test" [],
        some (RegError.invalidKeyType (unhashableMsg Key.pylist))) ∧
    Registry.get (Registry.mk "type_test" ([] : List (Key × String)))
        Key.pylist =
      .error (RegError.invalidKeyType (unhashableMsg Key.pylist)) ∧
    Registry.contains (Registry.mk "type_test" ([] : List (Key × String)))
        Key.pylist =
      .error (RegError.invalidKeyType (unhashableMsg Key.pylist)) ∧
    (Registry.mk "type_test" ([] : List (Key × String))).unregister
        Key.pylist =
      Registry.mk "type_test" [] ∧
    (RegError.invalidKeyType (unhashableMsg Key.pylist)).kind ≠
      ErrKind.duplicateKey ∧
    (RegError.invalidKeyType (unhashableMsg Key.pylist)).kind ≠
      ErrKind.keyNotFound :=
  unhashable_key_policy (Registry.mk "type_test" []) Key.pylist "value" rfl

/-- C9: a stored None value is distinguishable from absence — after
`add(k, None)` on a registry where `k` is fresh, `contains(k)` is true,
the size counts the entry, and `get(k)` returns None successfully rather
than failing with the key-not-found error. -/
theorem none_value_storable (r : Registry Obj) (k : Key)
    (hk : k.hashable = true) (habs : lookupKey k r.entries = none) :
    ∃ r2 : Registry Obj, Registry.add r k Obj.pynone = (r2, none) ∧
      r2.contains k = .ok true ∧
      r2.size = r.size + 1 ∧
      r2.get k = .ok Obj.pynone := by
  refine ⟨⟨r.name, r.entries ++ [(k, Obj.pynone)]⟩, ?_, ?_, ?_, ?_⟩
  · simp [Registry.add, hk, habs]
  · simp [Registry.contains, hk, lookupKey_append_single _ _ _ habs]
  · simp [Registry.size]
  · simp [Registry.get, hk, lookupKey_append_single _ _ _ habs]

/-- Witness for C9 at a concrete registry and key. -/
theorem none_value_storable_witness :
    ∃ r2 : Registry Obj,
      Registry.add (Registry.mk "none_value_test" []) (Key.str "none_key")
          Obj.pynone = (r2, none) ∧
      r2.contains (Key.str "none_key") = .ok true ∧
      r2.size = (Registry.mk "none_value_test" ([] : List (Key × Obj))).size
        + 1 ∧
      r2.get (Key.str "none_key") = .ok Obj.pynone :=
  none_value_storable (Registry.mk "none_value_test" [])
    (Key.str "none_key") rfl rfl

/-- C10: the empty string is a fully valid key for the direct Registry
operations — `add("", v)` succeeds, `contains("")` is true, `get("")`
returns `v`, `unregister("")` removes it (restoring the previous state,
where `contains("")` is false) — while the registration decorator treats an
empty-string key as absent and falls back to the object's own declared
name. -/
theorem empty_string_key_valid (r : Registry Obj) (v obj : Obj) (n : String)
    (habs : lookupKey (Key.str "") r.entries = none)
    (hname : obj.declName = some n) :
    (∃ r2 : Registry Obj, Registry.add r (Key.str "") v = (r2, none) ∧
      r2.contains (Key.str "") = .ok true ∧
      r2.get (Key.str "") = .ok v ∧
      r2.unregister (Key.str "") = r ∧
      r.contains (Key.str "") = .ok false) ∧
    effectiveKey (some "") obj = some n := by
  constructor
  · refine ⟨⟨r.name, r.entries ++ [(Key.str "", v)]⟩, ?_, ?_, ?_, ?_, ?_⟩
    · simp [Registry.add, Key.hashable, habs]
    · simp [Registry.contains, Key.hashable,
        lookupKey_append_single _ _ _ habs]
    · simp [Registry.get, Key.hashable, lookupKey_append_single _ _ _ habs]
    · simp [Registry.unregister, Key.hashable, eraseKey_append,
        eraseKey_of_lookup_none _ _ habs, eraseKey]
    · simp [Registry.contains, Key.hashable, habs]
  · simp [effectiveKey, hname]

/-- Witness for C10 at a concrete registry, value and named class. -/
theorem empty_string_key_valid_witness :
    (∃ r2 : Registry Obj,
      Registry.add (Registry.mk "empty_key_test" []) (Key.str "")
          (Obj.str "empty_key_value") = (r2, none) ∧
      r2.contains (Key.str "") = .ok true ∧
      r2.get (Key.str "") = .ok (Obj.str "empty_key_value") ∧
      r2.unregister (Key.str "") = Registry.mk "empty_key_test" [] ∧
      (Registry.mk "empty_key_test" ([] : List (Key × Obj))).contains
          (Key.str "") = .ok false) ∧
    effectiveKey (some "") (Obj.cls "TestClass") = some "TestClass" :=
  empty_string_key_valid (Registry.mk "empty_key_test" [])
    (Obj.str "empty_key_value") (Obj.cls "TestClass") "TestClass" rfl rfl

end Regman
